import Mathlib

/-!
Verification of the SSMM video-assembly engine against its specification.

The definitions below are a shallow embedding of the Python sources:
`ffmpeg_builder.py` (command builder), `video_processing.py` (process runner,
encoding policy, geometry, chapter export, concatenation and publish logic),
`ui_helpers.py` (picture-in-picture geometry) and `config.py` (constant
tables).  Python floats are modelled as exact rationals, Python `round` as
round-half-to-even, Python `int()` as truncation toward zero, and Python
`//` / `%` on integers as `Int.fdiv` / `Int.fmod`.  Subprocess execution is
modelled by an explicit environment assigning a behaviour (start failure,
timeout, or exit) to each argument list; file-system effects are modelled by
explicit state passing.
-/

namespace SSMM

/-- Python `round`: round half to even (banker's rounding) on the exact
rational value of the argument. -/
def pyRound (q : ℚ) : ℤ :=
  if q - (⌊q⌋ : ℚ) < 1/2 then ⌊q⌋
  else if 1/2 < q - (⌊q⌋ : ℚ) then ⌊q⌋ + 1
  else if ⌊q⌋ % 2 = 0 then ⌊q⌋ else ⌊q⌋ + 1

/-- Python `int()` applied to a numeric value: truncation toward zero. -/
def pyInt (q : ℚ) : ℤ :=
  if q < 0 then ⌈q⌉ else ⌊q⌋

/-- Contiguous-sublist test on character lists (recursion on the haystack). -/
def listContainsSub : List Char → List Char → Bool
  | needle, [] => needle.isEmpty
  | needle, c :: tl => needle.isPrefixOf (c :: tl) || listContainsSub needle tl

/-- Python substring test: `needle in hay` on strings. -/
def strContains (hay needle : String) : Bool :=
  listContainsSub needle.data hay.data

/-- Python format spec `{:02}`: pad the decimal representation with zeros on
the left to a width of two. -/
def pad2 (n : ℤ) : String :=
  if (toString n).length < 2 then "0" ++ toString n else toString n

/-! ## config.py constants used by the engine -/

/-- Encoding-mode display string for constant-quality mode (`config.ENCODING_MODES` key QUALITY). -/
def MODE_QUALITY : String := "Quality (CQP/CRF)"

/-- Encoding-mode display string for variable bitrate (`config.ENCODING_MODES` key VBR). -/
def MODE_VBR : String := "Bitrate (VBR)"

/-- Encoding-mode display string for constant bitrate (`config.ENCODING_MODES` key CBR). -/
def MODE_CBR : String := "Bitrate (CBR)"

/-- Pass-count display string for one pass (`config.ENCODING_PASSES` key ONE_PASS). -/
def PASSES_ONE : String := "1-Pass"

/-- Pass-count display string for two passes (`config.ENCODING_PASSES` key TWO_PASS). -/
def PASSES_TWO : String := "2-Pass"

/-- Multiplier for `-maxrate` in VBR mode (`config.VBR_MAXRATE_MULTIPLIER = 1.5`). -/
def VBR_MAXRATE_MULTIPLIER : ℚ := 3/2

/-- Multiplier for `-bufsize` in VBR mode (`config.VBR_BUFSIZE_MULTIPLIER = 2.0`). -/
def VBR_BUFSIZE_MULTIPLIER : ℚ := 2

/-- Silent audio source expression (`config.SILENT_AUDIO_SOURCE`). -/
def SILENT_AUDIO_SOURCE : String := "anullsrc=channel_layout=stereo:sample_rate=44100"

/-- Hardware-encoder table `config.CODEC_MAP`, as an association list
codec-name to (hardware-name to encoder id). -/
def CODEC_MAP : List (String × List (String × String)) :=
  [("H.264/MPEG-4 AVC",
     [("NVIDIA", "h264_nvenc"), ("Intel", "h264_qsv"),
      ("videotoolbox", "h264_videotoolbox"), ("AMD", "h264_amf")]),
   ("H.265/HEVC",
     [("NVIDIA", "hevc_nvenc"), ("Intel", "hevc_qsv"),
      ("videotoolbox", "hevc_videotoolbox"), ("AMD", "hevc_amf")]),
   ("AV1",
     [("NVIDIA", "av1_nvenc"), ("Intel", "av1_qsv"), ("AMD", "av1_amf")])]

/-- Software-encoder table `config.SOFTWARE_CODEC_MAP`. -/
def SOFTWARE_CODEC_MAP : List (String × String) :=
  [("MPEG-4 Part 2", "mpeg4"), ("H.264/MPEG-4 AVC", "libx264"),
   ("H.265/HEVC", "libx265"), ("AV1", "libaom-av1")]

/-! ## ffmpeg_builder.py -/

/-- Path of the encoder executable returned by `utils.get_ffmpeg_path()`
(an external collaborator; the exact path does not matter to any claim). -/
def ffmpegPath : String := "ffmpeg"

/-- State of `FFmpegCommandBuilder` (`ffmpeg_builder.py`): global flags, an
ordered list of (path, per-input flags) pairs, at most one filter-graph
expression, output flags and output path.  Paths are modelled as strings
(the Python code converts them with `str` when building). -/
structure FFmpegCommandBuilder where
  inputs : List (String × List String)
  filter_complex : Option String
  output_path : Option String
  output_options : List String
  global_options : List String
deriving DecidableEq

/-- Constructor state of `FFmpegCommandBuilder.__init__`. -/
def FFmpegCommandBuilder.init : FFmpegCommandBuilder :=
  { inputs := [], filter_complex := none, output_path := none,
    output_options := [], global_options := ["-y", "-hide_banner"] }

/-- Method `add_global_options`. -/
def FFmpegCommandBuilder.addGlobalOptions (b : FFmpegCommandBuilder)
    (opts : List String) : FFmpegCommandBuilder :=
  { b with global_options := b.global_options ++ opts }

/-- Method `add_input` (the Python `options or []` default is the second
argument here). -/
def FFmpegCommandBuilder.addInput (b : FFmpegCommandBuilder) (path : String)
    (options : List String) : FFmpegCommandBuilder :=
  { b with inputs := b.inputs ++ [(path, options)] }

/-- Method `set_filter_complex`. -/
def FFmpegCommandBuilder.setFilterComplex (b : FFmpegCommandBuilder)
    (f : String) : FFmpegCommandBuilder :=
  { b with filter_complex := some f }

/-- Method `set_output`. -/
def FFmpegCommandBuilder.setOutput (b : FFmpegCommandBuilder) (path : String)
    (options : List String) : FFmpegCommandBuilder :=
  { b with output_path := some path, output_options := options }

/-- Per-input part of the built command: for each input, its flags followed
by the `-i` marker and the input path. -/
def FFmpegCommandBuilder.inputArgs (b : FFmpegCommandBuilder) : List String :=
  b.inputs.flatMap fun inp => inp.2 ++ ["-i", inp.1]

/-- Filter-graph part of the built command.  Python checks
`if self.filter_complex:`, so an empty string behaves like an unset filter. -/
def FFmpegCommandBuilder.filterArgs (b : FFmpegCommandBuilder) : List String :=
  match b.filter_complex with
  | some f => if f = "" then [] else ["-filter_complex", f]
  | none => []

/-- Method `build`: raises `ValueError` when `not self.output_path` (Python
truthiness: unset, or set to an empty string), otherwise returns the
executable followed by global flags, inputs, filter graph, output flags and
the output path. -/
def FFmpegCommandBuilder.build (b : FFmpegCommandBuilder) :
    Except String (List String) :=
  match b.output_path with
  | none => .error "Output path must be set before building the command."
  | some p =>
    if p = "" then .error "Output path must be set before building the command."
    else
      .ok (ffmpegPath :: (b.global_options ++ b.inputArgs ++ b.filterArgs ++
        b.output_options ++ [p]))

/-! ## models.py: the parameter snapshot and slide entity (fields used by the
embedded functions; `tech_info` dictionary entries are lifted to fields, with
the `dar` string already split into its parsed `num:den` integer pair — the
probe writes it in canonical form). -/

/-- Snapshot of `ProjectParameters` (`models.py`), restricted to the fields
the embedded engine functions read. -/
structure ProjectParameters where
  resolution : String
  fps : ℤ
  codec : String
  hardware_encoding : Option String
  encoding_mode : String
  encoding_value : ℤ
  encoding_pass : String
  audio_bitrate : String
  audio_sample_rate : String
  audio_channels : ℤ
  export_youtube_chapters : Bool
  filename_input : String
deriving DecidableEq

/-- Slide entity (`models.py`), restricted to the fields the embedded engine
functions read.  `tech_width`/`tech_height` are `tech_info.get('width', 0)` /
`tech_info.get('height', 0)`; `tech_dar` is the parsed `num:den` pair of
`tech_info.get('dar')` (none when absent or unparsable); `tech_rotate` is
`tech_info.get('rotate')`. -/
structure Slide where
  filename : Option String
  duration : ℚ
  is_video : Bool
  tech_width : ℤ
  tech_height : ℤ
  tech_dar : Option (ℤ × ℤ)
  tech_rotate : Option String
  chapter_title : String
  video_position : Option String
  video_scale : ℤ
  interval_to_next : ℚ
  transition_to_next : String
deriving DecidableEq

/-! ## video_processing.py: encoding policy -/

/-- Method `VideoProcessor._resolve_codec_option`: hardware choice set looks
up `(codec, hardware)` in `CODEC_MAP` with default empty string, otherwise
the software encoder with default libx264. -/
def resolveCodecOption (codec : String) (hw : Option String) : String :=
  match hw with
  | some h => (((CODEC_MAP.lookup codec).getD []).lookup h).getD ""
  | none => (SOFTWARE_CODEC_MAP.lookup codec).getD "libx264"

/-- Method `VideoProcessor._get_common_audio_options`. -/
def getCommonAudioOptions (params : ProjectParameters) : List String :=
  ["-c:a", "aac", "-b:a", params.audio_bitrate, "-ar", params.audio_sample_rate,
   "-ac", toString params.audio_channels]

/-- Static per-encoder tuning flags appended by
`VideoProcessor._get_video_encoding_options` (the if/elif chain on the
resolved encoder id). -/
def codecTuningOptions (codec : String) : List String :=
  if codec = "libx264" then ["-profile:v", "high", "-level", "4.0", "-preset", "medium"]
  else if codec = "h264_nvenc" then ["-profile:v", "high", "-preset", "p5"]
  else if codec = "h264_qsv" then ["-profile:v", "high", "-preset", "medium"]
  else if codec = "h264_amf" then ["-profile:v", "high", "-quality", "quality"]
  else if codec = "h264_videotoolbox" then ["-profile:v", "high"]
  else if codec = "libx265" then ["-profile:v", "main", "-preset", "medium"]
  else if codec = "hevc_nvenc" then ["-profile:v", "main", "-preset", "p5"]
  else if codec = "hevc_qsv" then ["-profile:v", "main", "-preset", "slow"]
  else if codec = "hevc_amf" then ["-profile:v", "main", "-quality", "quality"]
  else if codec = "hevc_videotoolbox" then ["-profile:v", "main"]
  else if codec = "libaom-av1" then ["-profile:v", "main", "-cpu-used", "7"]
  else if codec = "av1_nvenc" then ["-profile:v", "main", "-preset", "p5"]
  else if codec = "av1_qsv" then ["-profile:v", "main", "-preset", "medium"]
  else if codec = "av1_amf" then ["-profile:v", "main", "-quality", "quality"]
  else []

/-- Quality/bitrate flags of `VideoProcessor._get_video_encoding_options`:
quality mode uses `-qp` for the NVENC/QSV/AMF families and `-crf` otherwise;
other modes set `-b:v`, and VBR additionally `-maxrate`/`-bufsize` derived
with the 1.5 and 2.0 multipliers (Python `int()` truncation). -/
def rateControlOptions (mode : String) (value : ℤ) (codec : String) : List String :=
  if mode = MODE_QUALITY then
    if strContains codec "nvenc" || strContains codec "qsv" || strContains codec "amf" then
      ["-qp", toString value]
    else
      ["-crf", toString value]
  else
    ["-b:v", toString value ++ "k"] ++
    (if mode = MODE_VBR then
      ["-maxrate", toString (pyInt (value * VBR_MAXRATE_MULTIPLIER)) ++ "k",
       "-bufsize", toString (pyInt (value * VBR_BUFSIZE_MULTIPLIER)) ++ "k"]
    else [])

/-- Two-pass eligibility as computed both in `VideoProcessor._execute_encoding`
and at the end of `VideoProcessor._get_video_encoding_options`: the pass-count
parameter is the two-pass value, the mode is not quality mode, and the
resolved encoder id does not contain the substring videotoolbox. -/
def executeEncodingIsTwoPass (params : ProjectParameters) (codec : String) : Bool :=
  (params.encoding_pass = PASSES_TWO) &&
  (params.encoding_mode ≠ MODE_QUALITY) &&
  !(strContains codec "videotoolbox")

/-- Method `VideoProcessor._get_video_encoding_options`. -/
def getVideoEncodingOptions (params : ProjectParameters) (passNum : ℤ)
    (isSinglePassOverride : Bool) : List String :=
  let codec := resolveCodecOption params.codec params.hardware_encoding
  let gopSize := params.fps * 2
  ["-pix_fmt", "yuv420p", "-color_primaries", "bt709", "-color_trc", "bt709",
   "-colorspace", "bt709", "-g", toString gopSize] ++
  codecTuningOptions codec ++
  rateControlOptions params.encoding_mode params.encoding_value codec ++
  (if !isSinglePassOverride && executeEncodingIsTwoPass params codec then
    ["-pass", toString passNum]
  else [])

/-- Number of encoder invocations performed by
`VideoProcessor._execute_encoding`: the two-pass branch runs a first pass to
the null device and a second pass to the real output, the other branch runs a
single encode. -/
def executeEncodingInvocations (params : ProjectParameters) (codec : String) : ℕ :=
  if executeEncodingIsTwoPass params codec then 2 else 1

/-! ## video_processing.py: process runner -/

/-- Behaviour of one child process, as observed by
`VideoProcessor._run_subprocess`: the process may fail to start
(`waitForStarted` false), fail to exit within the timeout window
(`waitForFinished` false), or exit with a code and a normal/crashed status,
producing merged output. -/
inductive ProcBehavior where
  | startFailure : ProcBehavior
  | timeout : ProcBehavior
  | exits (exitCode : ℤ) (normalExit : Bool) (output : String) : ProcBehavior
deriving DecidableEq

/-- Exception classification of `VideoProcessor._run_subprocess`:
`ProcessingCanceled`, the `RuntimeError` for a start failure, `TimeoutError`,
the generic nonzero-exit `Exception`, and the `ValueError` raised by
`FFmpegCommandBuilder.build` when no output path is set. -/
inductive RunErr where
  | canceled
  | startError
  | timedOut
  | commandFailed
  | buildError
deriving DecidableEq

deriving instance DecidableEq for Except

/-- Method `VideoProcessor._run_subprocess`.  `canceledBefore` is the value
of the shared cancellation flag at the check on entry; `canceledAfterWait` is
its value at the check performed right after `waitForFinished` returns (the
flag is only ever set, never cleared, during a run).  That check precedes
both the timeout classification and the exit-code classification. -/
def runSubprocess (canceledBefore canceledAfterWait : Bool)
    (beh : ProcBehavior) : Except RunErr String :=
  if canceledBefore then .error .canceled
  else
    match beh with
    | .startFailure => .error .startError
    | .timeout =>
      if canceledAfterWait then .error .canceled else .error .timedOut
    | .exits exitCode normalExit output =>
      if canceledAfterWait then .error .canceled
      else if exitCode ≠ 0 ∨ normalExit = false then .error .commandFailed
      else .ok output

/-- Builds a command with the builder and runs it through the runner; the
environment assigns a behaviour to every argument list, and the cancellation
flag is sampled at both runner check points. -/
def runCmd (env : List String → ProcBehavior) (canceled : Bool)
    (b : FFmpegCommandBuilder) : Except RunErr String :=
  match b.build with
  | .error _ => .error .buildError
  | .ok cmd => runSubprocess canceled canceled (env cmd)

/-! ## video_processing.py: media-duration probe -/

/-- Method `VideoProcessor._get_media_duration`: runs the prober through
`_run_subprocess` inside a `try` block whose `except Exception` handler logs
and returns 0.0.  `ProcessingCanceled` derives from `Exception`, so a
cancellation raised by the runner is caught here as well.  `parse` models
Python `float(output.strip())`, returning none when `float` raises. -/
def getMediaDuration (parse : String → Option ℚ)
    (probeResult : Except RunErr String) : ℚ :=
  match probeResult with
  | .ok output => (parse output).getD 0
  | .error _ => 0

/-- Fragment of `VideoProcessor._process_slide`: the duration probe followed
by the next runner invocation (the encode).  The cancellation flag is
monotone, so once it is set at any probe check point it is still set when the
encode step performs its own entry check. -/
def probeThenEncode (parse : String → Option ℚ)
    (probeCanceledBefore probeCanceledAfterWait : Bool)
    (probeBeh encodeBeh : ProcBehavior) : Except RunErr ℚ :=
  let duration := getMediaDuration parse
    (runSubprocess probeCanceledBefore probeCanceledAfterWait probeBeh)
  let flagAfterProbe := probeCanceledBefore || probeCanceledAfterWait
  match runSubprocess flagAfterProbe flagAfterProbe encodeBeh with
  | .ok _ => .ok duration
  | .error e => .error e

/-! ## Geometry (`ui_helpers.calculate_pinp_geometry` and
`VideoProcessor._overlay_video_on_image`) -/

/-- Rotation values for which the source width and height are swapped:
`rotation in ["90", "270", "-90"]`. -/
def rotationSwaps (r : Option String) : Bool :=
  r = some "90" || r = some "270" || r = some "-90"

/-- Source dimensions after the rotation swap. -/
def correctedDims (slide : Slide) : ℤ × ℤ :=
  if rotationSwaps slide.tech_rotate then (slide.tech_height, slide.tech_width)
  else (slide.tech_width, slide.tech_height)

/-- Aspect ratio as computed in `VideoProcessor._overlay_video_on_image` for
positive corrected height: corrected width over height, overridden by the
parsed display-aspect-ratio when the dar string is present, not `0:1`, and
has a positive denominator. -/
def overlayAspect (slide : Slide) : ℚ :=
  let wh := correctedDims slide
  match slide.tech_dar with
  | some nd => if nd ≠ (0, 1) ∧ nd.2 > 0 then (nd.1 : ℚ) / nd.2 else (wh.1 : ℚ) / wh.2
  | none => (wh.1 : ℚ) / wh.2

/-- Overlay rectangle size computed by `VideoProcessor._overlay_video_on_image`
(lines 754-776): target height is output height times scale percent, target
width is the unrounded target height times the aspect ratio, each then
rounded by `round(x / 2) * 2`; a non-positive corrected height keeps the
default 16/9 aspect ratio. -/
def overlayPinpSize (slide : Slide) (outputH : ℤ) : ℤ × ℤ :=
  let wh := correctedDims slide
  let aspect : ℚ := if wh.2 > 0 then overlayAspect slide else 16/9
  let scalePercent : ℚ := (slide.video_scale : ℚ) / 100
  let targetPinpHeightFloat : ℚ := (outputH : ℚ) * scalePercent
  let finalPinpWidthFloat : ℚ := targetPinpHeightFloat * aspect
  (pyRound (finalPinpWidthFloat / 2) * 2, pyRound (targetPinpHeightFloat / 2) * 2)

/-- Result dictionary of `ui_helpers.calculate_pinp_geometry`. -/
structure PinpGeometry where
  x : ℤ
  y : ℤ
  width : ℤ
  height : ℤ
deriving DecidableEq

/-- Function `ui_helpers.calculate_pinp_geometry`: none for non-video slides
and for non-positive corrected height; otherwise the even-rounded overlay
size (this variant overrides the aspect ratio for any parsed dar with
positive denominator, without the `0:1` exclusion) and the anchor position,
each coordinate put through Python `round`. -/
def calculatePinpGeometry (slide : Slide) (outputWidth outputHeight : ℤ) :
    Option PinpGeometry :=
  if slide.is_video = false then none
  else
    let wh := correctedDims slide
    if wh.2 ≤ 0 then none
    else
      let aspect : ℚ :=
        match slide.tech_dar with
        | some nd => if nd.2 > 0 then (nd.1 : ℚ) / nd.2 else (wh.1 : ℚ) / wh.2
        | none => (wh.1 : ℚ) / wh.2
      let scalePercent : ℚ := (slide.video_scale : ℚ) / 100
      let finalHeightFloat : ℚ := (outputHeight : ℚ) * scalePercent
      let finalWidthFloat : ℚ := finalHeightFloat * aspect
      let finalWidth := pyRound (finalWidthFloat / 2) * 2
      let finalHeight := pyRound (finalHeightFloat / 2) * 2
      let pos : ℚ × ℚ :=
        if slide.video_position = some "Center" then
          (((outputWidth : ℚ) - finalWidth) / 2, ((outputHeight : ℚ) - finalHeight) / 2)
        else if slide.video_position = some "Upper Left" then (0, 0)
        else if slide.video_position = some "Upper Right" then
          ((outputWidth : ℚ) - finalWidth, 0)
        else if slide.video_position = some "Bottom Left" then
          (0, (outputHeight : ℚ) - finalHeight)
        else if slide.video_position = some "Bottom Right" then
          ((outputWidth : ℚ) - finalWidth, (outputHeight : ℚ) - finalHeight)
        else (0, 0)
      some { x := pyRound pos.1, y := pyRound pos.2,
             width := finalWidth, height := finalHeight }

/-! ## video_processing.py: YouTube chapter export -/

/-- Chapter list built by both `VideoProcessor._generate_youtube_chapter_file`
and `Validator._validate_youtube_chapters`: walking the slides accumulating
start times (duration plus, except after the last slide, the interval), and
collecting `(start_time, title)` for every slide with a non-empty chapter
title. -/
def computeChapters : List Slide → ℚ → List (ℚ × String)
  | [], _ => []
  | [s], t =>
    if s.chapter_title = "" then [] else [(t, s.chapter_title)]
  | s :: s2 :: rest, t =>
    (if s.chapter_title = "" then [] else [(t, s.chapter_title)]) ++
    computeChapters (s2 :: rest) (t + s.duration + s.interval_to_next)

/-- Total running time accumulated by the same walk (the last slide
contributes its duration but not its interval). -/
def totalClipDuration : List Slide → ℚ → ℚ
  | [], t => t
  | [s], t => t + s.duration
  | s :: s2 :: rest, t =>
    totalClipDuration (s2 :: rest) (t + s.duration + s.interval_to_next)

/-- Length of each chapter: distance to the next chapter start, and for the
last chapter the distance to the end of the video (the quantity checked
against the 10-second minimum by `Validator._validate_youtube_chapters`). -/
def chapterLengths : List (ℚ × String) → ℚ → List ℚ
  | [], _ => []
  | [c], total => [total - c.1]
  | c :: c2 :: rest, total => (c2.1 - c.1) :: chapterLengths (c2 :: rest) total

/-- Method `VideoProcessor._format_seconds_to_hhmmss`: truncate to an integer
second count; emit `HH:MM:SS` when the hour count is positive and `MM:SS`
otherwise.  Python `//` and `%` are floor division and matching modulus. -/
def formatSecondsToHhmmss (totalSeconds : ℚ) : String :=
  let t := pyInt totalSeconds
  let hours := t.fdiv 3600
  let minutes := (t.fmod 3600).fdiv 60
  let seconds := t.fmod 60
  if hours > 0 then pad2 hours ++ ":" ++ pad2 minutes ++ ":" ++ pad2 seconds
  else pad2 minutes ++ ":" ++ pad2 seconds

/-- Method `VideoProcessor._generate_youtube_chapter_file`: recompute the
chapter list, raise `ValueError` when it is empty, has fewer than three
entries, or its first start time is not zero; otherwise return the sidecar
lines (timestamp, one space, title), which the code then writes to the
sidecar file.  On the error path the function raises before opening the
file, so no line is written. -/
def generateYoutubeChapterLines (slides : List Slide) :
    Except String (List String) :=
  let chapters := computeChapters slides 0
  if chapters = [] ∨ chapters.length < 3 ∨ (chapters.headD (0, "")).1 ≠ 0 then
    .error "Chapter data does not meet YouTube requirements. Please re-validate the project."
  else
    .ok (chapters.map fun c => formatSecondsToHhmmss c.1 ++ " " ++ c.2)

/-! ## video_processing.py: final and preview concatenation -/

/-- Final clip order built by `VideoProcessor._concatenate_videos`: every
slide segment in slide order, each followed by the transition/interval clip
for that index when one exists. -/
def finalVideoList (slideVideos : List String)
    (transitionVideos : ℕ → Option String) : List String :=
  slideVideos.enum.flatMap fun p => p.2 :: (transitionVideos p.1).toList

/-- Concat command issued by `VideoProcessor._concatenate_videos`: a plain
builder (no verbose flag), the demuxer list file as single input, and a
stream-copy output to the scratch file final_concat.mp4.  There is no
fallback in this method: the single stream-copy invocation is its only
encoder call. -/
def assemblyConcatBuilder (tempFolder : String) : FFmpegCommandBuilder :=
  (FFmpegCommandBuilder.init.addInput (tempFolder ++ "/concat_list.txt")
      ["-f", "concat", "-safe", "0"]).setOutput
    (tempFolder ++ "/final_concat.mp4") ["-c", "copy", "-movflags", "+faststart"]

/-- Method `VideoProcessor._concatenate_videos`: write the list file, run the
stream-copy concat, return the scratch path on success; any runner exception
propagates to the caller (`_run_logic`), aborting the run. -/
def concatenateVideos (env : List String → ProcBehavior) (canceled : Bool)
    (tempFolder : String) : Except RunErr String :=
  match runCmd env canceled (assemblyConcatBuilder tempFolder) with
  | .ok _ => .ok (tempFolder ++ "/final_concat.mp4")
  | .error e => .error e

/-- Method `VideoProcessor._create_ffmpeg_builder`: verbose runs add a
loglevel global flag. -/
def createFfmpegBuilder (isVerbose : Bool) : FFmpegCommandBuilder :=
  if isVerbose then FFmpegCommandBuilder.init.addGlobalOptions ["-loglevel", "info"]
  else FFmpegCommandBuilder.init

/-- Stream-copy concat command of the preview path
(`VideoProcessor.run_preview_creation`, attempt 1). -/
def previewCopyBuilder (isVerbose : Bool) (tempFolder finalPreviewPath : String) :
    FFmpegCommandBuilder :=
  ((createFfmpegBuilder isVerbose).addInput
      (tempFolder ++ "/concat_preview_list.txt") ["-f", "concat", "-safe", "0"]).setOutput
    finalPreviewPath ["-c", "copy", "-movflags", "+faststart"]

/-- Re-encode concat command of the preview path
(`VideoProcessor.run_preview_creation`, attempt 2): same list input, output
re-encoded with the single-pass video options, the common audio options and
the parameter frame rate. -/
def previewRecodeBuilder (isVerbose : Bool) (params : ProjectParameters)
    (codecOption : String) (tempFolder finalPreviewPath : String) :
    FFmpegCommandBuilder :=
  ((createFfmpegBuilder isVerbose).addInput
      (tempFolder ++ "/concat_preview_list.txt") ["-f", "concat", "-safe", "0"]).setOutput
    finalPreviewPath
    (["-c:v", codecOption] ++ getVideoEncodingOptions params 1 true ++
     getCommonAudioOptions params ++
     ["-r", toString params.fps, "-movflags", "+faststart"])

/-- Concatenation block of `VideoProcessor.run_preview_creation`: attempt the
stream-copy concat; its `except Exception` handler catches any failure and
retries the same concatenation as a full re-encode with the segment tuning. -/
def previewConcatStep (env : List String → ProcBehavior) (canceled : Bool)
    (isVerbose : Bool) (params : ProjectParameters) (codecOption : String)
    (tempFolder finalPreviewPath : String) : Except RunErr Unit :=
  match runCmd env canceled (previewCopyBuilder isVerbose tempFolder finalPreviewPath) with
  | .ok _ => .ok ()
  | .error _ =>
    match runCmd env canceled
        (previewRecodeBuilder isVerbose params codecOption tempFolder finalPreviewPath) with
    | .ok _ => .ok ()
    | .error e => .error e

/-! ## video_processing.py: run_video_creation publish logic -/

/-- Origin of a file sitting at the temporary or final output path. -/
inductive FileOrigin where
  | preexisting
  | thisRun
deriving DecidableEq

/-- Contents of the two output locations `run_video_creation` touches: the
temporary path (filename.tmp.mp4) and the final published path
(filename.mp4), each either empty or holding a file of known origin. -/
structure PublishState where
  tempFile : Option FileOrigin
  finalFile : Option FileOrigin
deriving DecidableEq

/-- Outcome of `VideoProcessor._run_logic` for one run: it returned normally,
raised `ProcessingCanceled`, or raised some other exception.  In the
sequential model the cancellation flag is set exactly when `ProcessingCanceled`
was raised (every pipeline step and every runner invocation checks the flag
and raises). -/
inductive LogicOutcome where
  | completed
  | raisedCanceled
  | raisedError
deriving DecidableEq

/-- Method `VideoProcessor.run_video_creation` as a transition on the two
output locations.  `tempWritten` records whether `_run_logic` got far enough
to write the temporary output file.  On normal completion the final path is
unlinked if occupied and the temporary file is moved over it (a missing
temporary file makes `shutil.move` raise, landing in the generic handler);
both exception handlers unlink the temporary file and leave the final path
untouched.  The returned flag is the success component of the result pair. -/
def runVideoCreation (st : PublishState) (outcome : LogicOutcome)
    (tempWritten : Bool) : PublishState × Bool :=
  let st1 := if tempWritten then { st with tempFile := some .thisRun } else st
  match outcome with
  | .completed =>
    match st1.tempFile with
    | some f => ({ tempFile := none, finalFile := some f }, true)
    | none => ({ st1 with tempFile := none }, false)
  | .raisedCanceled => ({ st1 with tempFile := none }, false)
  | .raisedError => ({ st1 with tempFile := none }, false)

/-! ## Concrete instances used by counterexamples and witnesses -/

/-- Set of encoder ids that `resolveCodecOption` can produce: the values of
the two codec tables, the empty-string default of the hardware path and the
libx264 default of the software path. -/
def allEncoderIds : List String :=
  ["", "libx264", "h264_nvenc", "h264_qsv", "h264_videotoolbox", "h264_amf",
   "libx265", "hevc_nvenc", "hevc_qsv", "hevc_videotoolbox", "hevc_amf",
   "libaom-av1", "av1_nvenc", "av1_qsv", "av1_amf", "mpeg4"]

/-- Baseline slide for concrete instances: a 1x1 video slide at 50 percent
scale, anchored at Center. -/
def centerSlide : Slide :=
  { filename := none, duration := 0, is_video := true, tech_width := 1,
    tech_height := 1, tech_dar := none, tech_rotate := none,
    chapter_title := "", video_position := some "Center", video_scale := 50,
    interval_to_next := 0, transition_to_next := "None" }

/-- Slide with a 1920x1080 source rotated 90 degrees at 50 percent scale
(the worked example of the specification). -/
def rotatedSlide : Slide :=
  { centerSlide with
    tech_width := 1920, tech_height := 1080, tech_rotate := some "90" }

/-- Non-video slide carrying a chapter title and duration. -/
def chapterSlide (title : String) (d : ℚ) : Slide :=
  { centerSlide with is_video := false, chapter_title := title, duration := d }

/-- Project whose three chapters start at 0, 5 and 10 seconds: every chapter
is only 5 seconds long. -/
def shortChapterSlides : List Slide :=
  [chapterSlide "A" 5, chapterSlide "B" 5, chapterSlide "C" 5]

/-- Project whose three chapters start at 0, 15 and 40 seconds: every chapter
is at least 15 seconds long. -/
def goodChapterSlides : List Slide :=
  [chapterSlide "A" 15, chapterSlide "B" 25, chapterSlide "C" 20]

/-- Process environment in which every command containing the literal
argument copy (the stream-copy concats) exits with code 1 and every other
command (in particular the re-encode concat) succeeds. -/
def copyRejectingEnv : List String → ProcBehavior := fun cmd =>
  if cmd.contains "copy" then ProcBehavior.exits 1 true "stream copy mismatch"
  else ProcBehavior.exits 0 true ""

/-- Parameter snapshot using the software H.264 encoder in quality mode. -/
def plainParams : ProjectParameters :=
  { resolution := "1920x1080", fps := 30, codec := "H.264/MPEG-4 AVC",
    hardware_encoding := none, encoding_mode := MODE_QUALITY,
    encoding_value := 23, encoding_pass := PASSES_ONE,
    audio_bitrate := "160k", audio_sample_rate := "32000", audio_channels := 2,
    export_youtube_chapters := false, filename_input := "out" }

/-- Parameter snapshot requesting two-pass VBR on the Apple hardware
encoder. -/
def vtParams : ProjectParameters :=
  { plainParams with
    hardware_encoding := some "videotoolbox", encoding_mode := MODE_VBR,
    encoding_value := 6000, encoding_pass := PASSES_TWO }

/-- Builder state with one input, a filter graph and an output, used to
exercise the build order. -/
def exampleBuilder : FFmpegCommandBuilder :=
  ((FFmpegCommandBuilder.init.addInput "in.png" ["-loop", "1"]).setFilterComplex
    "scale=640:480").setOutput "out.mp4" ["-c:v", "libx264"]

/-! ## Helper lemmas -/

/-- Python round returns a nearest integer: no integer is strictly closer to
the argument than the rounding result. -/
theorem pyRound_nearest (q : ℚ) (z : ℤ) :
    |(pyRound q : ℚ) - q| ≤ |(z : ℚ) - q| := by
  have hfl : (⌊q⌋ : ℚ) ≤ q := Int.floor_le q
  have hlt : q < (⌊q⌋ : ℚ) + 1 := Int.lt_floor_add_one q
  have hz : (z : ℚ) ≤ (⌊q⌋ : ℚ) ∨ (⌊q⌋ : ℚ) + 1 ≤ (z : ℚ) := by
    rcases le_or_lt z ⌊q⌋ with h | h
    · exact Or.inl (by exact_mod_cast h)
    · right
      have h1 : ⌊q⌋ + 1 ≤ z := h
      exact_mod_cast h1
  unfold pyRound
  by_cases h1 : q - (⌊q⌋ : ℚ) < 1/2
  · rw [if_pos h1]
    rcases hz with hz | hz
    · rw [abs_of_nonpos (by linarith), abs_of_nonpos (by linarith)]
      linarith
    · rw [abs_of_nonpos (by linarith), abs_of_nonneg (by linarith)]
      linarith
  · rw [if_neg h1]
    by_cases h2 : 1/2 < q - (⌊q⌋ : ℚ)
    · rw [if_pos h2]
      push_cast
      rcases hz with hz | hz
      · rw [abs_of_nonneg (by linarith), abs_of_nonpos (by linarith)]
        linarith
      · rw [abs_of_nonneg (by linarith), abs_of_nonneg (by linarith)]
        linarith
    · have htie : q - (⌊q⌋ : ℚ) = 1/2 := le_antisymm (not_lt.mp h2) (not_lt.mp h1)
      by_cases h3 : ⌊q⌋ % 2 = 0
      · rw [if_neg h2, if_pos h3]
        rcases hz with hz | hz
        · rw [abs_of_nonpos (by linarith), abs_of_nonpos (by linarith)]
          linarith
        · rw [abs_of_nonpos (by linarith), abs_of_nonneg (by linarith)]
          linarith
      · rw [if_neg h2, if_neg h3]
        push_cast
        rcases hz with hz | hz
        · rw [abs_of_nonneg (by linarith), abs_of_nonpos (by linarith)]
          linarith
        · rw [abs_of_nonneg (by linarith), abs_of_nonneg (by linarith)]
          linarith

/-- Python round is the identity on integers. -/
theorem pyRound_intCast (n : ℤ) : pyRound (n : ℚ) = n := by
  unfold pyRound
  rw [Int.floor_intCast]
  norm_num

/-- The even-rounding pattern `round(x / 2) * 2` of the geometry code yields
a nearest even integer: no even integer is strictly closer to the unrounded
value. -/
theorem evenRound_nearest (x : ℚ) (e : ℤ) (he : 2 ∣ e) :
    |((pyRound (x / 2) * 2 : ℤ) : ℚ) - x| ≤ |(e : ℚ) - x| := by
  obtain ⟨m, rfl⟩ := he
  have h := pyRound_nearest (x / 2) m
  have l1 : ((pyRound (x / 2) * 2 : ℤ) : ℚ) - x = ((pyRound (x / 2) : ℚ) - x / 2) * 2 := by
    push_cast
    ring
  have l2 : ((2 * m : ℤ) : ℚ) - x = ((m : ℚ) - x / 2) * 2 := by
    push_cast
    ring
  rw [l1, l2, abs_mul, abs_mul]
  have h2 : |(2 : ℚ)| = 2 := by norm_num
  rw [h2]
  linarith [abs_nonneg ((pyRound (x / 2) : ℚ) - x / 2), abs_nonneg ((m : ℚ) - x / 2)]

/-- Decimal digit characters are never a colon. -/
theorem digitChar_ne_colon (k : ℕ) : Nat.digitChar k ≠ ':' := by
  by_cases h : k < 16
  · interval_cases k <;> decide
  · have hs : Nat.digitChar k = '*' := by
      unfold Nat.digitChar
      repeat rw [if_neg (by omega)]
    rw [hs]
    decide

/-- The digit accumulator of `Nat.repr` never introduces a colon. -/
theorem count_colon_toDigitsCore (b f n : ℕ) (acc : List Char) :
    (Nat.toDigitsCore b f n acc).count ':' = acc.count ':' := by
  induction f generalizing n acc with
  | zero => rfl
  | succ f ih =>
    rw [Nat.toDigitsCore]
    split
    · rw [List.count_cons]
      simp [digitChar_ne_colon]
    · rw [ih, List.count_cons]
      simp [digitChar_ne_colon]

/-- The decimal representation of a natural number contains no colon. -/
theorem count_colon_natRepr (n : ℕ) : (Nat.repr n).data.count ':' = 0 := by
  show (Nat.toDigits 10 n).asString.data.count ':' = 0
  have h : (Nat.toDigits 10 n).asString.data = Nat.toDigits 10 n := rfl
  rw [h]
  unfold Nat.toDigits
  rw [count_colon_toDigitsCore]
  rfl

/-- The decimal representation of a non-negative integer contains no colon. -/
theorem count_colon_intToString (n : ℤ) (h : 0 ≤ n) :
    (toString n).data.count ':' = 0 := by
  obtain ⟨m, rfl⟩ := Int.eq_ofNat_of_zero_le h
  show (Int.repr (Int.ofNat m)).data.count ':' = 0
  show (Nat.repr m).data.count ':' = 0
  exact count_colon_natRepr m

/-- Zero-padded two-digit fields contain no colon. -/
theorem count_colon_pad2 (n : ℤ) (h : 0 ≤ n) : (pad2 n).data.count ':' = 0 := by
  unfold pad2
  split
  · rw [String.data_append, List.count_append, count_colon_intToString n h]
    rfl
  · exact count_colon_intToString n h

/-! ## Claim C3 -/

unseal Rat.add Rat.mul Rat.inv Rat.sub in
/-- C3 counterexample: the sidecar line for the chapter starting at 15
seconds carries the timestamp 00:15, which has a single colon and therefore
not the claimed `HH:MM:SS` shape: for start times below one hour the written
timestamp omits the hours field. -/
theorem C3_counterexample :
    generateYoutubeChapterLines goodChapterSlides =
      .ok ["00:00 A", "00:15 B", "00:40 C"] ∧
    formatSecondsToHhmmss 15 = "00:15" ∧
    ¬ ("00:15".data.count ':' = 2) := by
  refine ⟨by decide, by decide, by decide⟩

/-- C3 amended: a chapter-file timestamp for a non-negative start time is
`MM:SS` (exactly one colon separator) when the truncated second count is
below one hour, and `HH:MM:SS` (exactly two colon separators) from one hour
on. -/
theorem C3_timestamp_colon_count (q : ℚ) (h : 0 ≤ q) :
    (formatSecondsToHhmmss q).data.count ':' =
      if pyInt q < 3600 then 1 else 2 := by
  have ht : 0 ≤ pyInt q := by
    unfold pyInt
    rw [if_neg (not_lt.mpr h)]
    exact Int.floor_nonneg.mpr h
  simp only [formatSecondsToHhmmss]
  set t := pyInt q with htdef
  have hsnn : 0 ≤ t.fmod 60 := Int.fmod_nonneg' t (by norm_num)
  have hmnn : 0 ≤ (t.fmod 3600).fdiv 60 :=
    Int.fdiv_nonneg (Int.fmod_nonneg' t (by norm_num)) (by norm_num)
  by_cases hlt : t < 3600
  · have hh : t.fdiv 3600 = 0 := by
      rw [Int.fdiv_eq_ediv _ (by norm_num)]
      exact Int.ediv_eq_zero_of_lt ht hlt
    rw [if_neg (by omega), if_pos hlt]
    simp only [String.data_append, List.count_append,
      count_colon_pad2 _ hmnn, count_colon_pad2 _ hsnn]
    decide
  · have hh : 0 < t.fdiv 3600 := by
      rw [Int.fdiv_eq_ediv _ (by norm_num)]
      have h1 : 1 ≤ t / 3600 := by
        rw [Int.le_ediv_iff_mul_le (by norm_num)]
        omega
      omega
    have hhn : 0 ≤ t.fdiv 3600 := le_of_lt hh
    rw [if_pos hh, if_neg hlt]
    simp only [String.data_append, List.count_append,
      count_colon_pad2 _ hhn, count_colon_pad2 _ hmnn, count_colon_pad2 _ hsnn]
    decide

/-- C3 witness: the amended theorem applied at 125 seconds (timestamp 02:05,
one colon) and 3725 seconds (timestamp 01:02:05, two colons). -/
theorem C3_timestamp_colon_count_witness :
    (formatSecondsToHhmmss 125).data.count ':' = 1 ∧
    (formatSecondsToHhmmss 3725).data.count ':' = 2 := by
  constructor
  · have h := C3_timestamp_colon_count 125 (by norm_num)
    rw [h]
    decide
  · have h := C3_timestamp_colon_count 3725 (by norm_num)
    rw [h]
    decide

/-! ## Claims C5, C10: process runner -/

/-- Core cancellation property of the runner, shared by the claims about the
runner and about the duration probe: a flag set at the entry check, or at the
post-wait check of a process that started, yields the canceled error. -/
theorem runSubprocess_canceled_of_flag (beh : ProcBehavior) (cb ca : Bool)
    (h : cb = true ∨ (ca = true ∧ beh ≠ ProcBehavior.startFailure)) :
    runSubprocess cb ca beh = .error RunErr.canceled := by
  rcases h with h | ⟨hca, hbeh⟩
  · simp [runSubprocess, h]
  · subst hca
    cases beh with
    | startFailure => exact absurd rfl hbeh
    | timeout => cases cb <;> simp [runSubprocess]
    | exits c n o => cases cb <;> simp [runSubprocess]

/-- C5: in the process runner, cancellation takes priority over every other
failure classification — whenever the shared cancellation flag is set before
the subprocess starts, or becomes set during the execution of a process that
did start, the runner raises the canceled error (so neither the timeout nor
the nonzero-exit error, whatever the behaviour and exit code). -/
theorem C5_cancellation_priority (beh : ProcBehavior) (cb ca : Bool)
    (h : cb = true ∨ (ca = true ∧ beh ≠ ProcBehavior.startFailure)) :
    runSubprocess cb ca beh = .error RunErr.canceled :=
  runSubprocess_canceled_of_flag beh cb ca h

/-- C5 witness: a process that exits normally with code 0 while the flag was
set during execution is still classified as canceled. -/
theorem C5_cancellation_priority_witness :
    runSubprocess false true (ProcBehavior.exits 0 true "done") =
      .error RunErr.canceled :=
  C5_cancellation_priority (ProcBehavior.exits 0 true "done") false true
    (Or.inr ⟨rfl, by decide⟩)

/-- C10: a cancellation raised by the runner during the media-duration probe
is caught by the generic handler of the probe, which returns a duration of
0.0, and the pipeline then aborts with the canceled error at the next runner
invocation rather than at the probe. -/
theorem C10_probe_cancellation_recovered (parse : String → Option ℚ)
    (pcb pca : Bool) (probeBeh encodeBeh : ProcBehavior)
    (h : pcb = true ∨ (pca = true ∧ probeBeh ≠ ProcBehavior.startFailure)) :
    runSubprocess pcb pca probeBeh = .error RunErr.canceled ∧
    getMediaDuration parse (runSubprocess pcb pca probeBeh) = 0 ∧
    probeThenEncode parse pcb pca probeBeh encodeBeh =
      .error RunErr.canceled := by
  have h1 : runSubprocess pcb pca probeBeh = .error RunErr.canceled :=
    runSubprocess_canceled_of_flag probeBeh pcb pca h
  have hflag : (pcb || pca) = true := by
    rcases h with h | ⟨h, _⟩ <;> simp [h]
  have h2 : runSubprocess (pcb || pca) (pcb || pca) encodeBeh =
      .error RunErr.canceled :=
    runSubprocess_canceled_of_flag encodeBeh _ _ (Or.inl hflag)
  refine ⟨h1, by simp [getMediaDuration, h1], ?_⟩
  simp only [probeThenEncode, h2]

/-- C10 witness: flag set during the probe of a normally exiting prober, and
a well-behaved encode process: duration 0 and canceled at the encode step. -/
theorem C10_probe_cancellation_recovered_witness :
    getMediaDuration (fun _ => some 7) (runSubprocess false true
      (ProcBehavior.exits 0 true "12.5")) = 0 ∧
    probeThenEncode (fun _ => some 7) false true
      (ProcBehavior.exits 0 true "12.5") (ProcBehavior.exits 0 true "") =
      .error RunErr.canceled := by
  have h := C10_probe_cancellation_recovered (fun _ => some 7) false true
    (ProcBehavior.exits 0 true "12.5") (ProcBehavior.exits 0 true "")
    (Or.inr ⟨rfl, by decide⟩)
  exact ⟨h.2.1, h.2.2⟩

/-! ## Claim C4: atomic publish -/

/-- C4: a run of video creation whose pipeline logic raised (cancellation or
any other error) ends unsuccessfully, with the temporary output file deleted
and the final published path exactly as it was before the run — in
particular no file written by this run sits at the published path; and a run
that completed after writing the temporary file moves that file over the
final path and reports success. -/
theorem C4_failed_run_publishes_nothing (st : PublishState)
    (outcome : LogicOutcome) (tempWritten : Bool) :
    ((outcome = LogicOutcome.raisedCanceled ∨
        outcome = LogicOutcome.raisedError) →
      (runVideoCreation st outcome tempWritten).1.tempFile = none ∧
      (runVideoCreation st outcome tempWritten).1.finalFile = st.finalFile ∧
      (runVideoCreation st outcome tempWritten).2 = false) ∧
    (outcome = LogicOutcome.completed → tempWritten = true →
      runVideoCreation st outcome tempWritten =
        ({ tempFile := none, finalFile := some FileOrigin.thisRun }, true)) := by
  constructor
  · intro h
    rcases h with h | h <;> subst h <;> cases tempWritten <;>
      simp [runVideoCreation]
  · intro h htw
    subst h
    subst htw
    simp [runVideoCreation]

/-- C4 witness: a canceled run that had already written the temporary file,
over a pre-existing published file: the temporary file is removed and the
pre-existing file is untouched. -/
theorem C4_failed_run_publishes_nothing_witness :
    (runVideoCreation
      { tempFile := none, finalFile := some FileOrigin.preexisting }
      LogicOutcome.raisedCanceled true).1.tempFile = none ∧
    (runVideoCreation
      { tempFile := none, finalFile := some FileOrigin.preexisting }
      LogicOutcome.raisedCanceled true).1.finalFile =
      some FileOrigin.preexisting ∧
    (runVideoCreation
      { tempFile := none, finalFile := some FileOrigin.preexisting }
      LogicOutcome.raisedCanceled true).2 = false :=
  (C4_failed_run_publishes_nothing
    { tempFile := none, finalFile := some FileOrigin.preexisting }
    LogicOutcome.raisedCanceled true).1 (Or.inl rfl)

/-! ## Claim C9: command builder -/

/-- C9: `build()` fails whenever no output path has been set (the builder
state Python treats as unset: none, or the empty string), and for every
builder state with a set output path the produced argument list is exactly
the executable followed by the global flags, then each input's flags
followed by the input marker and path in insertion order, then the
filter-graph flag when a filter graph is set, then the output flags, then
the output path last. -/
theorem C9_build_order (b : FFmpegCommandBuilder) :
    ((b.output_path = none ∨ b.output_path = some "") →
      b.build = .error "Output path must be set before building the command.") ∧
    (∀ p, b.output_path = some p → p ≠ "" →
      b.build = .ok (ffmpegPath :: (b.global_options ++ b.inputArgs ++
        b.filterArgs ++ b.output_options ++ [p]))) := by
  constructor
  · rintro (h | h) <;> simp [FFmpegCommandBuilder.build, h]
  · intro p hp hne
    simp [FFmpegCommandBuilder.build, hp, hne]

/-- C9 witness: the builder state with one input, a filter graph and an
output produces the documented order, and the initial state fails. -/
theorem C9_build_order_witness :
    exampleBuilder.build =
      .ok ["ffmpeg", "-y", "-hide_banner", "-loop", "1", "-i", "in.png",
        "-filter_complex", "scale=640:480", "-c:v", "libx264", "out.mp4"] ∧
    FFmpegCommandBuilder.init.build =
      .error "Output path must be set before building the command." := by
  constructor
  · have h := (C9_build_order exampleBuilder).2 "out.mp4" rfl (by decide)
    rw [h]
    rfl
  · exact (C9_build_order FFmpegCommandBuilder.init).1 (Or.inl rfl)

/-! ## Claim C2: chapter export gate -/

unseal Rat.add Rat.mul Rat.inv Rat.sub in
/-- C2 counterexample: a project with chapters starting at 0, 5 and 10
seconds (three chapters, first at zero, but every chapter only 5 seconds
long) violates the 10-second condition, yet the export step succeeds and
produces the sidecar lines instead of failing: the export step does not
check the minimum chapter length. -/
theorem C2_counterexample :
    generateYoutubeChapterLines shortChapterSlides =
      .ok ["00:00 A", "00:05 B", "00:10 C"] ∧
    (5 : ℚ) ∈ chapterLengths (computeChapters shortChapterSlides 0)
      (totalClipDuration shortChapterSlides 0) ∧
    (5 : ℚ) < 10 := by
  refine ⟨by decide, by decide, by decide⟩

/-- C2 amended: the export step emits the sidecar lines exactly when there
are at least three chapters and the first chapter starts at time zero;
otherwise it raises the fixed descriptive error before writing anything.
The every-chapter-at-least-10-seconds rule is enforced upstream by the
project validator, not by the export step. -/
theorem C2_export_gate (slides : List Slide) :
    (3 ≤ (computeChapters slides 0).length ∧
        ((computeChapters slides 0).headD (0, "")).1 = 0 →
      generateYoutubeChapterLines slides =
        .ok ((computeChapters slides 0).map fun c =>
          formatSecondsToHhmmss c.1 ++ " " ++ c.2)) ∧
    (¬(3 ≤ (computeChapters slides 0).length ∧
        ((computeChapters slides 0).headD (0, "")).1 = 0) →
      generateYoutubeChapterLines slides =
        .error "Chapter data does not meet YouTube requirements. Please re-validate the project.") := by
  constructor
  · rintro ⟨h3, h0⟩
    have hne : ¬(computeChapters slides 0 = []) := by
      intro hemp
      rw [hemp] at h3
      simp at h3
    unfold generateYoutubeChapterLines
    rw [if_neg]
    push_neg
    exact ⟨hne, by omega, h0⟩
  · intro hnot
    unfold generateYoutubeChapterLines
    rw [if_pos]
    by_cases h3 : 3 ≤ (computeChapters slides 0).length
    · by_cases h0 : ((computeChapters slides 0).headD (0, "")).1 = 0
      · exact absurd ⟨h3, h0⟩ hnot
      · exact Or.inr (Or.inr h0)
    · exact Or.inr (Or.inl (by omega))

unseal Rat.add Rat.mul Rat.inv Rat.sub in
/-- C2 witness: the chapters at 0, 15 and 40 seconds pass the gate and their
sidecar lines are produced. -/
theorem C2_export_gate_witness :
    generateYoutubeChapterLines goodChapterSlides =
      .ok ["00:00 A", "00:15 B", "00:40 C"] := by
  have h := (C2_export_gate goodChapterSlides).1 ⟨by decide, by decide⟩
  rw [h]
  decide

/-! ## Claim C1: concatenation fallback -/

/-- C1 counterexample: in an environment where every stream-copy command
fails and every other command succeeds, the assembly pipeline's final
concatenation aborts with the nonzero-exit error instead of retrying, while
the preview path's concatenation block under the same environment retries
and succeeds with the re-encode. -/
theorem C1_counterexample :
    concatenateVideos copyRejectingEnv false "tmp" =
      .error RunErr.commandFailed ∧
    previewConcatStep copyRejectingEnv false false plainParams "libx264"
      "tmp" "preview.mp4" = .ok () := by
  refine ⟨by decide, by decide⟩

/-- C1 amended: the stream-copy-first, re-encode-on-failure concatenation
exists only in the preview-creation path; the assembly pipeline's final
concatenation issues a single stream-copy invocation and propagates its
failure (aborting the run), with no re-encode retry. -/
theorem C1_fallback_only_in_preview :
    (∀ (env : List String → ProcBehavior) (canceled : Bool) (tf : String)
        (e : RunErr),
      runCmd env canceled (assemblyConcatBuilder tf) = .error e →
      concatenateVideos env canceled tf = .error e) ∧
    (∀ (env : List String → ProcBehavior) (isVerbose : Bool)
        (params : ProjectParameters) (codecOption tf out : String)
        (e : RunErr) (o : String),
      runCmd env false (previewCopyBuilder isVerbose tf out) = .error e →
      runCmd env false (previewRecodeBuilder isVerbose params codecOption tf out) =
        .ok o →
      previewConcatStep env false isVerbose params codecOption tf out =
        .ok ()) := by
  constructor
  · intro env canceled tf e h
    simp [concatenateVideos, h]
  · intro env isVerbose params codecOption tf out e o h1 h2
    simp [previewConcatStep, h1, h2]

/-- C1 witness: the two halves of the amended claim applied in the
environment that rejects stream copies. -/
theorem C1_fallback_only_in_preview_witness :
    concatenateVideos copyRejectingEnv false "scratch" =
      .error RunErr.commandFailed ∧
    previewConcatStep copyRejectingEnv false true plainParams "libx264"
      "scratch" "p.mp4" = .ok () := by
  constructor
  · exact (C1_fallback_only_in_preview).1 copyRejectingEnv false "scratch"
      RunErr.commandFailed (by decide)
  · exact (C1_fallback_only_in_preview).2 copyRejectingEnv true plainParams
      "libx264" "scratch" "p.mp4" RunErr.commandFailed "" (by decide) (by decide)


/-! ## Claim C6: two-pass policy -/

/-- Successful association-list lookups return one of the stored values. -/
theorem lookup_mem_values {α β : Type} [BEq α] (l : List (α × β)) (k : α) (v : β)
    (h : l.lookup k = some v) : v ∈ l.map Prod.snd := by
  induction l with
  | nil => simp [List.lookup] at h
  | cons kv tl ih =>
    obtain ⟨a, b⟩ := kv
    cases hk : k == a with
    | true =>
      simp only [List.lookup, hk, Option.some.injEq] at h
      subst h
      simp
    | false =>
      simp only [List.lookup, hk] at h
      simp [ih h]

/-- Lookup with a default returns the default or one of the stored values. -/
theorem lookup_getD_mem {α β : Type} [BEq α] (l : List (α × β)) (k : α) (d : β) :
    (l.lookup k).getD d ∈ d :: l.map Prod.snd := by
  cases hl : l.lookup k with
  | none => simp
  | some v => simp [lookup_mem_values _ _ _ hl]

/-- Membership of a defaulted lookup in a superset of default and values. -/
theorem getD_lookup_sub {l : List (String × String)} (k : String) (d : String)
    (hsub : (d :: l.map Prod.snd) ⊆ allEncoderIds) :
    (l.lookup k).getD d ∈ allEncoderIds :=
  hsub (lookup_getD_mem l k d)

/-- Every encoder id the resolver can produce is in the finite id set. -/
theorem resolveCodec_mem (codec : String) (hw : Option String) :
    resolveCodecOption codec hw ∈ allEncoderIds := by
  unfold resolveCodecOption
  cases hw with
  | none => exact getD_lookup_sub codec "libx264" (by decide)
  | some h =>
    cases hm : CODEC_MAP.lookup codec with
    | none => simp [allEncoderIds]
    | some m =>
      have hmv := lookup_mem_values _ _ _ hm
      simp only [CODEC_MAP, List.map_cons, List.map_nil, List.mem_cons,
        List.not_mem_nil, or_false] at hmv
      rcases hmv with h1 | h1 | h1 <;> subst h1 <;>
        exact getD_lookup_sub h "" (by decide)

/-- Over the resolvable encoder ids, containing the substring videotoolbox
is the same as being one of the two Apple hardware encoders. -/
theorem vt_sub_iff_of_mem (x : String) (hx : x ∈ allEncoderIds) :
    strContains x "videotoolbox" = true ↔
      (x = "h264_videotoolbox" ∨ x = "hevc_videotoolbox") := by
  fin_cases hx <;> decide

/-- C6: two-pass encoding (two encoder invocations in `_execute_encoding`)
happens exactly when the pass-count parameter is the two-pass value, the
mode is not quality mode, and the resolved encoder is not one of the Apple
videotoolbox encoders; in particular two-pass VBR on videotoolbox hardware
resolves to a single-pass encode. -/
theorem C6_two_pass_policy :
    (∀ (p : ProjectParameters),
      executeEncodingInvocations p
          (resolveCodecOption p.codec p.hardware_encoding) = 2 ↔
        (p.encoding_pass = PASSES_TWO ∧ p.encoding_mode ≠ MODE_QUALITY ∧
         resolveCodecOption p.codec p.hardware_encoding ≠ "h264_videotoolbox" ∧
         resolveCodecOption p.codec p.hardware_encoding ≠ "hevc_videotoolbox")) ∧
    resolveCodecOption vtParams.codec vtParams.hardware_encoding =
      "h264_videotoolbox" ∧
    vtParams.encoding_pass = PASSES_TWO ∧
    vtParams.encoding_mode = MODE_VBR ∧
    executeEncodingInvocations vtParams
      (resolveCodecOption vtParams.codec vtParams.hardware_encoding) = 1 := by
  refine ⟨?_, by decide, by decide, by decide, by decide⟩
  intro p
  set c := resolveCodecOption p.codec p.hardware_encoding with hc
  have hvt := vt_sub_iff_of_mem c (resolveCodec_mem p.codec p.hardware_encoding)
  have h2 : executeEncodingInvocations p c = 2 ↔
      executeEncodingIsTwoPass p c = true := by
    unfold executeEncodingInvocations
    cases h : executeEncodingIsTwoPass p c <;> simp [h]
  rw [h2]
  unfold executeEncodingIsTwoPass
  simp only [Bool.and_eq_true, decide_eq_true_eq, Bool.not_eq_true']
  constructor
  · rintro ⟨⟨hp, hm⟩, hs⟩
    have hnot : ¬(c = "h264_videotoolbox" ∨ c = "hevc_videotoolbox") := by
      intro hor
      exact absurd (hvt.mpr hor) (by simp [hs])
    push_neg at hnot
    exact ⟨hp, hm, hnot.1, hnot.2⟩
  · rintro ⟨hp, hm, hvt1, hvt2⟩
    refine ⟨⟨hp, hm⟩, ?_⟩
    cases hb : strContains c "videotoolbox" with
    | false => rfl
    | true =>
      rcases hvt.mp hb with h | h
      · exact absurd h hvt1
      · exact absurd h hvt2


/-! ## Claim C7: overlay rectangle size -/

/-- C7: for a slide with positive corrected source height, the overlay
rectangle of `_overlay_video_on_image` is (width, height) with height the
even-rounding of output height times scale percent, and width the
even-rounding of that unrounded target height times the aspect ratio
(corrected for rotation and dar); both are divisible by two and each is a
nearest even integer to its unrounded value. -/
theorem C7_overlay_even_rounding (slide : Slide) (outputH : ℤ)
    (hpos : 0 < (correctedDims slide).2) :
    overlayPinpSize slide outputH =
      (pyRound ((outputH : ℚ) * slide.video_scale / 100 * overlayAspect slide / 2) * 2,
       pyRound ((outputH : ℚ) * slide.video_scale / 100 / 2) * 2) ∧
    2 ∣ (overlayPinpSize slide outputH).1 ∧
    2 ∣ (overlayPinpSize slide outputH).2 ∧
    (∀ e : ℤ, 2 ∣ e →
      |((overlayPinpSize slide outputH).2 : ℚ) -
          (outputH : ℚ) * slide.video_scale / 100| ≤
        |(e : ℚ) - (outputH : ℚ) * slide.video_scale / 100|) ∧
    (∀ e : ℤ, 2 ∣ e →
      |((overlayPinpSize slide outputH).1 : ℚ) -
          (outputH : ℚ) * slide.video_scale / 100 * overlayAspect slide| ≤
        |(e : ℚ) - (outputH : ℚ) * slide.video_scale / 100 * overlayAspect slide|) := by
  have harg : (outputH : ℚ) * ((slide.video_scale : ℚ) / 100) =
      (outputH : ℚ) * slide.video_scale / 100 := by ring
  have heq : overlayPinpSize slide outputH =
      (pyRound ((outputH : ℚ) * slide.video_scale / 100 * overlayAspect slide / 2) * 2,
       pyRound ((outputH : ℚ) * slide.video_scale / 100 / 2) * 2) := by
    simp only [overlayPinpSize]
    rw [if_pos hpos, harg]
  refine ⟨heq, ?_, ?_, ?_, ?_⟩
  · rw [heq]
    exact ⟨_, mul_comm _ 2⟩
  · rw [heq]
    exact ⟨_, mul_comm _ 2⟩
  · intro e he
    rw [heq]
    exact evenRound_nearest _ e he
  · intro e he
    rw [heq]
    exact evenRound_nearest _ e he

unseal Rat.add Rat.mul Rat.inv Rat.sub in
/-- C7 witness: the 1920x1080 source rotated 90 degrees at 50 percent scale
into a 1080-high frame yields the even 304x540 overlay. -/
theorem C7_overlay_even_rounding_witness :
    overlayPinpSize rotatedSlide 1080 = (304, 540) ∧
    2 ∣ (overlayPinpSize rotatedSlide 1080).1 ∧
    2 ∣ (overlayPinpSize rotatedSlide 1080).2 := by
  refine ⟨?_, (C7_overlay_even_rounding rotatedSlide 1080 (by decide)).2.1,
    (C7_overlay_even_rounding rotatedSlide 1080 (by decide)).2.2.1⟩
  decide


/-! ## Claim C8: anchor positions -/

/-- Python round of a difference of integers is exact. -/
theorem pyRound_int_sub (a b : ℤ) : pyRound ((a : ℚ) - b) = a - b := by
  rw [show ((a : ℚ) - b) = ((a - b : ℤ) : ℚ) by push_cast; ring, pyRound_intCast]

/-- Python round of half of a difference of even integers is the floor
division by two. -/
theorem pyRound_half_of_even (a b : ℤ) (ha : 2 ∣ a) (hb : 2 ∣ b) :
    pyRound (((a : ℚ) - b) / 2) = (a - b).fdiv 2 := by
  obtain ⟨x, rfl⟩ := ha
  obtain ⟨y, rfl⟩ := hb
  have h2 : (((2 * x : ℤ) : ℚ) - ((2 * y : ℤ) : ℚ)) / 2 = ((x - y : ℤ) : ℚ) := by
    push_cast
    ring
  rw [h2, pyRound_intCast, show (2 * x - 2 * y : ℤ) = 2 * (x - y) by ring,
    Int.mul_fdiv_cancel_left _ (by norm_num)]

/-- Python round of zero. -/
theorem pyRound_zero : pyRound 0 = 0 := by
  norm_num [pyRound]

/-- C8 amended: when the output dimensions are even (overlay dimensions are
always even by construction), every anchor's computed position equals the
exact integer-arithmetic value floor-rounded: Center gives the floor halves,
the corners give 0 or the exact differences.  (For odd output dimensions
Python round of the half-integer Center position rounds half to even, which
can exceed the floor by one.) -/
theorem C8_anchor_positions (slide : Slide) (W H : ℤ) (g : PinpGeometry)
    (hW : 2 ∣ W) (hH : 2 ∣ H)
    (hg : calculatePinpGeometry slide W H = some g) :
    (slide.video_position = some "Center" →
      g.x = (W - g.width).fdiv 2 ∧ g.y = (H - g.height).fdiv 2) ∧
    (slide.video_position = some "Upper Left" → g.x = 0 ∧ g.y = 0) ∧
    (slide.video_position = some "Upper Right" → g.x = W - g.width ∧ g.y = 0) ∧
    (slide.video_position = some "Bottom Left" → g.x = 0 ∧ g.y = H - g.height) ∧
    (slide.video_position = some "Bottom Right" →
      g.x = W - g.width ∧ g.y = H - g.height) := by
  simp only [calculatePinpGeometry] at hg
  by_cases hv : slide.is_video = false
  · rw [if_pos hv] at hg
    cases hg
  rw [if_neg hv] at hg
  by_cases hh : (correctedDims slide).2 ≤ 0
  · rw [if_pos hh] at hg
    cases hg
  rw [if_neg hh] at hg
  cases Option.some.inj hg
  refine ⟨?_, ?_, ?_, ?_, ?_⟩ <;> intro hp <;> simp only [hp, reduceIte]
  · constructor
    · exact pyRound_half_of_even W _ hW ⟨_, mul_comm _ 2⟩
    · exact pyRound_half_of_even H _ hH ⟨_, mul_comm _ 2⟩
  · exact ⟨pyRound_zero, pyRound_zero⟩
  · exact ⟨pyRound_int_sub W _, pyRound_zero⟩
  · exact ⟨pyRound_zero, pyRound_int_sub H _⟩
  · exact ⟨pyRound_int_sub W _, pyRound_int_sub H _⟩

unseal Rat.add Rat.mul Rat.inv Rat.sub in
/-- C8 counterexample: Center anchor in an 11-wide frame with an 8-wide
overlay: the exact position is 1.5, its floor is 1, but the code computes 2
(round half to even), so the claimed floor-rounding fails. -/
theorem C8_counterexample :
    calculatePinpGeometry centerSlide 11 16 =
      some { x := 2, y := 4, width := 8, height := 8 } ∧
    ((11 : ℤ) - 8).fdiv 2 = 1 ∧ ¬((2 : ℤ) = 1) := by
  refine ⟨by decide, by decide, by decide⟩

unseal Rat.add Rat.mul Rat.inv Rat.sub in
/-- C8 witness: the amended theorem applied to the Center anchor in an even
12x16 frame: position (2, 4) equals the floor halves. -/
theorem C8_anchor_positions_witness :
    calculatePinpGeometry centerSlide 12 16 =
      some { x := 2, y := 4, width := 8, height := 8 } ∧
    (2 : ℤ) = ((12 : ℤ) - 8).fdiv 2 ∧ (4 : ℤ) = ((16 : ℤ) - 8).fdiv 2 := by
  have hg : calculatePinpGeometry centerSlide 12 16 =
      some { x := 2, y := 4, width := 8, height := 8 } := by decide
  have h := (C8_anchor_positions centerSlide 12 16
    { x := 2, y := 4, width := 8, height := 8 } (by norm_num) (by norm_num) hg).1 rfl
  exact ⟨hg, h.1, h.2⟩

end SSMM
